import Mathlib

/-!
Shallow embedding of the field-resolver and permission-grant logic of the
GSuite_Assessment repository.

Sources embedded:
  * src/Google_Users_Assessment.py — the WorkspaceStatsCollector methods
    get_drive_item_count, get_drive_storage, get_gmail_statistics and
    get_user_workspace_stats;
  * src/add_admin_to_shared_drives.py — check_admin_permissions and
    add_admin_to_drive.

The Reports API parameter extraction (get_all_parameters, lines 114-127 of
src/Google_Users_Assessment.py) stores each parameter as a string value, an
int value, a bool value, or None; a Usage Record is therefore modelled as an
insertion-ordered association list from metric names to such values.
-/

/-- Value of one Usage Record parameter, exactly the shapes produced by
get_all_parameters: stringValue, int(intValue), boolValue, or None. -/
inductive Value where
  | str  : String → Value
  | int  : Int → Value
  | bool : Bool → Value
  | null : Value
deriving DecidableEq, Repr

/-- A Usage Record: insertion-ordered mapping from metric name to value
(a Python dict preserves insertion order, so iteration order is list order). -/
abbrev Params := List (String × Value)

/-- Does the character list starting here begin with the needle. -/
def startsL : List Char → List Char → Bool
  | [], _ => true
  | _ :: _, [] => false
  | n :: ns, h :: hs => n == h && startsL ns hs

/-- Does the haystack character list contain the needle as a contiguous run. -/
def containsSubL (needle : List Char) : List Char → Bool
  | [] => startsL needle []
  | h :: hs => startsL needle (h :: hs) || containsSubL needle hs

/-- Python `needle in hay` on strings: contiguous-substring test. -/
def strContains (hay needle : String) : Bool :=
  containsSubL needle.data hay.data

/-- ASCII whitespace, the characters str.strip() removes on the inputs in
scope. -/
def isSpaceChar (c : Char) : Bool :=
  c == ' ' || c == '\t' || c == '\n' || c == '\r' || c == '\x0b' || c == '\x0c'

/-- Strip leading and trailing whitespace from a character list. -/
def trimL (l : List Char) : List Char :=
  ((l.dropWhile isSpaceChar).reverse.dropWhile isSpaceChar).reverse

/-- Lowercase one ASCII character (str.lower() on the key names in scope). -/
def toLowerC (c : Char) : Char :=
  if 'A' ≤ c ∧ c ≤ 'Z' then Char.ofNat (c.toNat + 32) else c

/-- Python s.lower() on the ASCII key names in scope. -/
def strLower (s : String) : String :=
  String.mk (s.data.map toLowerC)

/-- Digit-string to Nat, assuming all characters are decimal digits. -/
def natOfDigits (l : List Char) : Nat :=
  l.foldl (fun n c => 10 * n + (c.toNat - 48)) 0

/-- Parse a nonempty all-digit character list. -/
def digitsToNat (l : List Char) : Option Nat :=
  if l ≠ [] ∧ l.all Char.isDigit then some (natOfDigits l) else Option.none

/-- Python int(s) on a string: optional surrounding whitespace, optional
sign, decimal digits. (Digit-group underscores are not modelled; no claim
exercises them.) -/
def parseIntStr (s : String) : Option Int :=
  match trimL s.data with
  | '-' :: rest => (digitsToNat rest).map (fun n => -(n : Int))
  | '+' :: rest => (digitsToNat rest).map (fun n => (n : Int))
  | l => (digitsToNat l).map (fun n => (n : Int))

/-- Parse an unsigned decimal character list, with at most one point. -/
def parseUnsignedDec (l : List Char) : Option ℚ :=
  match l.span (fun c => c ≠ '.') with
  | (ip, []) => (digitsToNat ip).map (fun n => (n : ℚ))
  | (ip, _ :: fp) =>
    if (ip ≠ [] ∨ fp ≠ []) ∧ ip.all Char.isDigit ∧ fp.all Char.isDigit ∧ fp.all (fun c => c ≠ '.') then
      some ((natOfDigits ip : ℚ) + (natOfDigits fp : ℚ) / (10 : ℚ) ^ fp.length)
    else Option.none

/-- Python float(s) on a string: optional whitespace and sign, decimal
notation. (Exponent notation, inf and nan are not modelled; no claim
exercises them. Rationals stand in for IEEE doubles: every arithmetic step
the claims exercise — sums and division by the power of two 1048576 — is
exact in both.) -/
def parseFloatStr (s : String) : Option ℚ :=
  match trimL s.data with
  | '-' :: rest => (parseUnsignedDec rest).map (fun q => -q)
  | '+' :: rest => parseUnsignedDec rest
  | l => parseUnsignedDec l

/-- Python int(v): identity on ints, 0/1 on bools, string parse on strings,
TypeError (modelled as failure) on None. -/
def pyInt (v : Value) : Option Int :=
  match v with
  | .str s => parseIntStr s
  | .int n => some n
  | .bool b => some (if b then 1 else 0)
  | .null => Option.none

/-- Python float(v): ints and bools embed, strings parse, None fails. -/
def pyFloat (v : Value) : Option ℚ :=
  match v with
  | .str s => parseFloatStr s
  | .int n => some (n : ℚ)
  | .bool b => some (if b then 1 else 0)
  | .null => Option.none

/-- Python bool(v): truthiness — nonempty string, nonzero int, the bool
itself, False for None. Never fails. -/
def pyBool (v : Value) : Bool :=
  match v with
  | .str s => s ≠ ""
  | .int n => n ≠ 0
  | .bool b => b
  | .null => false

/-- item_count_params of get_drive_item_count (lines 154-167), in source
order of preference. -/
def item_count_params : List String :=
  ["num_items", "num_docs", "num_sheets", "num_slides", "num_drawings",
   "num_forms", "num_files", "num_folders", "drive_num_items", "doc_count",
   "drive_file_count", "total_doc_count"]

/-- doc_type_params of get_drive_item_count (lines 181-194). -/
def doc_type_params : List String :=
  ["drive:num_owned_google_documents_created",
   "drive:num_owned_google_spreadsheets_created",
   "drive:num_owned_google_presentations_created",
   "drive:num_owned_google_drawings_created",
   "drive:num_owned_google_forms_created",
   "drive:num_owned_other_types_created",
   "docs:num_owned_google_documents_created",
   "docs:num_owned_google_spreadsheets_created",
   "docs:num_owned_google_presentations_created",
   "docs:num_owned_google_drawings_created",
   "docs:num_owned_google_forms_created",
   "docs:num_owned_other_types_created"]

/-- Stage-1 scan of get_drive_item_count (lines 170-178): first key of the
list that is present, parses with int, and is strictly positive. A present
key that fails to parse, or parses to a non-positive value, is passed over. -/
def firstPositiveInt (params : Params) : List String → Option Int
  | [] => Option.none
  | p :: rest =>
    match params.lookup p with
    | some raw =>
      match pyInt raw with
      | some value => if value > 0 then some value else firstPositiveInt params rest
      | Option.none => firstPositiveInt params rest
    | Option.none => firstPositiveInt params rest

/-- Whether one key would be accepted by the stage-1 scan: present, parses
with int, strictly positive. -/
def keyQualifies (params : Params) (key : String) : Bool :=
  match params.lookup key with
  | some raw =>
    match pyInt raw with
    | some value => decide (value > 0)
    | Option.none => false
  | Option.none => false

/-- Stage-2 accumulation loop of get_drive_item_count (lines 197-205):
total_items += int(parameters[param]) over the component keys, parse
failures skipped, carried in source loop order. -/
def componentSumFrom (params : Params) (acc : Int) : List String → Int
  | [] => acc
  | p :: rest =>
    match params.lookup p with
    | some raw =>
      match pyInt raw with
      | some value => componentSumFrom params (acc + value) rest
      | Option.none => componentSumFrom params acc rest
    | Option.none => componentSumFrom params acc rest

/-- total_items after the stage-2 loop of get_drive_item_count. -/
def componentSum (params : Params) : Int :=
  componentSumFrom params 0 doc_type_params

/-- Whether type_counts is nonempty after the stage-2 loop: some component
key is present and parses. -/
def hasComponent (params : Params) : Bool :=
  doc_type_params.any fun p =>
    match params.lookup p with
    | some raw => (pyInt raw).isSome
    | Option.none => false

/-- Stage-3 fallback of get_drive_item_count (lines 215-223): scan all
record entries in order; a key whose lowercased name contains count, items
or docs, parses with int, is strictly positive, and mentions drive, is
returned first-match. -/
def driveItemFallback : Params → Option Int
  | [] => Option.none
  | (name, v) :: rest =>
    let ln := (strLower name)
    if strContains ln "count" || strContains ln "items" || strContains ln "docs" then
      match pyInt v with
      | some value =>
        if value > 0 ∧ strContains ln "drive" then some value
        else driveItemFallback rest
      | Option.none => driveItemFallback rest
    else driveItemFallback rest

/-- get_drive_item_count (lines 140-225): stage-1 preferred-key scan, then
component sum if positive, then (only when the running total is exactly
zero) the substring fallback, else the running total itself. -/
def get_drive_item_count (params : Params) : Int :=
  match firstPositiveInt params item_count_params with
  | some value => value
  | Option.none =>
    let total := componentSum params
    if hasComponent params ∧ total > 0 then total
    else if total = 0 then
      match driveItemFallback params with
      | some value => value
      | Option.none => total
    else total

/-- storage_params of get_drive_storage (lines 250-258). -/
def storage_params : List String :=
  ["drive_storage_bytes_used", "storage_quota_bytes", "used_quota_in_mb",
   "quota_used", "storage_quota_mb", "drive_storage_used", "total_storage_used"]

/-- Unit conversion of the storage resolvers (lines 266-268 and elsewhere):
divide by 1024*1024 when the lowercased key name contains bytes or the value
exceeds one million, else keep the value. -/
def mbConvert (lname : String) (value : ℚ) : ℚ :=
  if strContains lname "bytes" ∨ value > 1000000 then value / (1024 * 1024) else value

/-- Ordered-list storage scan (lines 261-273, reused at 342-356 for Gmail):
first key present and float-parseable is returned after unit conversion —
with no positivity gate. -/
def storageScanList (params : Params) : List String → Option ℚ
  | [] => Option.none
  | p :: rest =>
    match params.lookup p with
    | some raw =>
      match pyFloat raw with
      | some value => some (mbConvert (strLower p) value)
      | Option.none => storageScanList params rest
    | Option.none => storageScanList params rest

/-- Whether one key would be consumed by the ordered storage scan: present
and float-parseable. -/
def keyParsesF (params : Params) (key : String) : Bool :=
  ((params.lookup key).bind pyFloat).isSome

/-- Drive storage fallback (lines 276-289): entries whose lowercased name
contains storage, quota or byte; parse, convert, and return the first whose
converted value is strictly positive and whose name mentions drive. -/
def driveStorageFallback : Params → Option ℚ
  | [] => Option.none
  | (name, v) :: rest =>
    let ln := (strLower name)
    if strContains ln "storage" || strContains ln "quota" || strContains ln "byte" then
      match pyFloat v with
      | some raw =>
        let value := mbConvert ln raw
        if value > 0 ∧ strContains ln "drive" then some value
        else driveStorageFallback rest
      | Option.none => driveStorageFallback rest
    else driveStorageFallback rest

/-- get_drive_storage after the preferred accounts key fell through. -/
def driveStorageAfterAccounts (params : Params) : ℚ :=
  match storageScanList params storage_params with
  | some value => value
  | Option.none =>
    match driveStorageFallback params with
    | some value => value
    | Option.none => 0

/-- get_drive_storage (lines 227-291): the accounts:drive_used_quota_in_mb
key, when present and parseable, is returned directly with no unit
conversion and no positivity gate; otherwise the ordered scan, then the
substring fallback, then zero. -/
def get_drive_storage (params : Params) : ℚ :=
  match params.lookup "accounts:drive_used_quota_in_mb" with
  | some raw =>
    match pyFloat raw with
    | some value => value
    | Option.none => driveStorageAfterAccounts params
  | Option.none => driveStorageAfterAccounts params

/-- gmail_status_params (line 314). -/
def gmail_status_params : List String :=
  ["gmail:is_gmail_enabled", "is_gmail_enabled", "gmail_enabled", "has_gmail"]

/-- gmail_storage_params (lines 335-340). -/
def gmail_storage_params : List String :=
  ["gmail_used_quota_in_mb", "gmail_storage_used", "gmail_quota_used",
   "gmail_storage_bytes_used"]

/-- sent_params (line 378). -/
def sent_params : List String :=
  ["gmail:num_emails_sent", "num_emails_sent", "emails_sent", "sent_mail_count"]

/-- received_params (line 391). -/
def received_params : List String :=
  ["gmail:num_emails_received", "num_emails_received", "emails_received",
   "received_mail_count"]

/-- exchanged_params (line 404). -/
def exchanged_params : List String :=
  ["gmail:num_emails_exchanged", "num_emails_exchanged", "emails_exchanged",
   "total_mail_count"]

/-- First key of the list present in the record (Gmail status scan,
lines 315-322; bool() never fails so the first present key wins). -/
def firstPresent (params : Params) : List String → Option Value
  | [] => Option.none
  | p :: rest =>
    match params.lookup p with
    | some v => some v
    | Option.none => firstPresent params rest

/-- Count scans of get_gmail_statistics (lines 379-414): first key present
and int-parseable sets the statistic and breaks — with no positivity gate. -/
def firstParsedInt (params : Params) : List String → Option Int
  | [] => Option.none
  | p :: rest =>
    match params.lookup p with
    | some raw =>
      match pyInt raw with
      | some value => some value
      | Option.none => firstParsedInt params rest
    | Option.none => firstParsedInt params rest

/-- Gmail storage fallback (lines 360-375): entries whose lowercased name
contains storage, quota or byte and also gmail; parse, convert, take the
first strictly positive converted value. -/
def gmailStorageFallback : Params → Option ℚ
  | [] => Option.none
  | (name, v) :: rest =>
    let ln := (strLower name)
    if (strContains ln "storage" || strContains ln "quota" || strContains ln "byte")
        && strContains ln "gmail" then
      match pyFloat v with
      | some raw =>
        let value := mbConvert ln raw
        if value > 0 then some value
        else gmailStorageFallback rest
      | Option.none => gmailStorageFallback rest
    else gmailStorageFallback rest

/-- Gmail storage resolution (lines 325-375): the preferred
accounts:gmail_used_quota_in_mb key, when present, is returned raw on parse
success and leaves zero on parse failure (its else-branch scans are then
skipped); otherwise the ordered scan, and when the scanned storage is still
zero, the substring fallback. Second component: Has_Gmail_Data so far. -/
def gmailStorageState (params : Params) : ℚ × Bool :=
  match params.lookup "accounts:gmail_used_quota_in_mb" with
  | some raw =>
    match pyFloat raw with
    | some value => (value, true)
    | Option.none => (0, false)
  | Option.none =>
    match storageScanList params gmail_storage_params with
    | some value =>
      if value = 0 then
        match gmailStorageFallback params with
        | some fv => (fv, true)
        | Option.none => (value, true)
      else (value, true)
    | Option.none =>
      match gmailStorageFallback params with
      | some fv => (fv, true)
      | Option.none => (0, false)

/-- Resolved Gmail statistics record (gmail_stats dict, lines 304-311). -/
structure GmailStats where
  Gmail_Storage_MB : ℚ
  Gmail_Emails_Received : Int
  Gmail_Emails_Sent : Int
  Gmail_Emails_Exchanged : Int
  Is_Gmail_Enabled : Bool
  Has_Gmail_Data : Bool
deriving DecidableEq, Repr

/-- get_gmail_statistics (lines 293-421). -/
def get_gmail_statistics (params : Params) : GmailStats :=
  let enabled :=
    match firstPresent params gmail_status_params with
    | some v => pyBool v
    | Option.none => true
  let storagePair := gmailStorageState params
  let sentOpt := firstParsedInt params sent_params
  let recvOpt := firstParsedInt params received_params
  let exchOpt := firstParsedInt params exchanged_params
  let sent := sentOpt.getD 0
  let received := recvOpt.getD 0
  let exchanged0 := exchOpt.getD 0
  let exchanged :=
    if exchanged0 = 0 ∧ (sent > 0 ∨ received > 0) then sent + received else exchanged0
  { Gmail_Storage_MB := storagePair.1
    Gmail_Emails_Received := received
    Gmail_Emails_Sent := sent
    Gmail_Emails_Exchanged := exchanged
    Is_Gmail_Enabled := enabled
    Has_Gmail_Data := storagePair.2 || sentOpt.isSome || recvOpt.isSome || exchOpt.isSome }

/-- Per-principal stats record assembled by get_user_workspace_stats
(lines 434-450). -/
structure WorkspaceStats where
  Gmail_Storage_MB : ℚ
  Gmail_Emails_Received : Int
  Gmail_Emails_Sent : Int
  Gmail_Emails_Exchanged : Int
  Is_Gmail_Enabled : Bool
  Has_Gmail_Data : Bool
  Drive_Storage_MB : ℚ
  Drive_Item_Count : Int
  Has_Drive_Data : Bool
  Total_Storage_MB : ℚ
deriving DecidableEq, Repr

/-- get_user_workspace_stats (lines 423-498). Inputs: the suspension flag of
the directory record (a failed directory fetch behaves like not suspended)
and the Usage Record (a failed report fetch returns the empty record, whose
falsy dict skips the whole stats block). -/
def get_user_workspace_stats (suspended : Bool) (params : Params) : WorkspaceStats :=
  let enabled0 := !suspended
  if params.isEmpty then
    { Gmail_Storage_MB := 0, Gmail_Emails_Received := 0, Gmail_Emails_Sent := 0
      Gmail_Emails_Exchanged := 0, Is_Gmail_Enabled := enabled0, Has_Gmail_Data := false
      Drive_Storage_MB := 0, Drive_Item_Count := 0, Has_Drive_Data := false
      Total_Storage_MB := 0 }
  else
    let drive_storage := get_drive_storage params
    let dsPair : ℚ × Bool := if drive_storage > 0 then (drive_storage, true) else (0, false)
    let drive_items := get_drive_item_count params
    let diPair : Int × Bool := if drive_items > 0 then (drive_items, true) else (0, false)
    let g := get_gmail_statistics params
    { Gmail_Storage_MB := g.Gmail_Storage_MB
      Gmail_Emails_Received := g.Gmail_Emails_Received
      Gmail_Emails_Sent := g.Gmail_Emails_Sent
      Gmail_Emails_Exchanged := g.Gmail_Emails_Exchanged
      Is_Gmail_Enabled := g.Is_Gmail_Enabled
      Has_Gmail_Data := g.Has_Gmail_Data
      Drive_Storage_MB := dsPair.1
      Drive_Item_Count := diPair.1
      Has_Drive_Data := dsPair.2 || diPair.2
      Total_Storage_MB := g.Gmail_Storage_MB + dsPair.1 }

/-- One entry of a shared-drive permission listing (id, emailAddress, role),
as read by check_admin_permissions. -/
structure Permission where
  id : String
  emailAddress : String
  role : String
deriving DecidableEq, Repr

/-- A mutating Drive API call issued by add_admin_to_drive. -/
inductive MutationCall where
  | update : String → String → MutationCall
  | create : String → String → MutationCall
deriving DecidableEq, Repr

/-- The printed outcome of one add_admin_to_drive invocation. -/
inductive Report where
  | alreadyHas | dryRunUpdate | updated | updateError
  | dryRunCreate | created | createError
deriving DecidableEq, Repr

/-- Result of one add_admin_to_drive invocation: the mutating remote calls
issued (in order), the returned boolean, and the printed outcome. -/
structure DriveOpResult where
  calls : List MutationCall
  success : Bool
  report : Report
deriving DecidableEq, Repr

/-- check_admin_permissions (src/add_admin_to_shared_drives.py lines 66-95):
list the permissions of the drive (listOk false models an HttpError from the
listing, which the except-branch turns into the no-permission triple) and
return the first entry whose lowercased email equals the lowercased admin
email. -/
def check_admin_permissions (listOk : Bool) (perms : List Permission)
    (adminEmail : String) : Bool × Option String × Option String :=
  if listOk then
    match perms.find? (fun p => strLower p.emailAddress == strLower adminEmail) with
    | some p => (true, some p.id, some p.role)
    | Option.none => (false, Option.none, Option.none)
  else (false, Option.none, Option.none)

/-- add_admin_to_drive (lines 97-161). remoteOk models whether an attempted
mutation raises HttpError; the attempted call is recorded either way. -/
def add_admin_to_drive (listOk : Bool) (perms : List Permission)
    (adminEmail role : String) (dryRun : Bool) (remoteOk : Bool) : DriveOpResult :=
  let check := check_admin_permissions listOk perms adminEmail
  if check.1 then
    if check.2.2 = some role then
      { calls := [], success := true, report := Report.alreadyHas }
    else if dryRun then
      { calls := [], success := true, report := Report.dryRunUpdate }
    else if remoteOk then
      { calls := [MutationCall.update (check.2.1.getD "") role], success := true,
        report := Report.updated }
    else
      { calls := [MutationCall.update (check.2.1.getD "") role], success := false,
        report := Report.updateError }
  else
    if dryRun then
      { calls := [], success := true, report := Report.dryRunCreate }
    else if remoteOk then
      { calls := [MutationCall.create adminEmail role], success := true,
        report := Report.created }
    else
      { calls := [MutationCall.create adminEmail role], success := false,
        report := Report.createError }

/-- Effect of one mutating call on the remote permission list: update
rewrites the role of the matching permission id in place; create appends a
new permission (the server-chosen id is abstracted as "new"). -/
def applyCall (perms : List Permission) (c : MutationCall) : List Permission :=
  match c with
  | .update pid newRole =>
    perms.map (fun p => if p.id = pid then { p with role := newRole } else p)
  | .create email newRole => perms ++ [{ id := "new", emailAddress := email, role := newRole }]

/-- Effect of a sequence of mutating calls on the remote permission list. -/
def applyCalls (perms : List Permission) (cs : List MutationCall) : List Permission :=
  cs.foldl applyCall perms

/-! Helper lemmas about the scan primitives. Each scan gets a one-step
cons equation (rfl) so that case analysis on the head can proceed without
unfolding recursive occurrences. -/

theorem firstPositiveInt_cons (params : Params) (p : String) (rest : List String) :
    firstPositiveInt params (p :: rest) =
      match params.lookup p with
      | some raw =>
        match pyInt raw with
        | some value => if value > 0 then some value else firstPositiveInt params rest
        | Option.none => firstPositiveInt params rest
      | Option.none => firstPositiveInt params rest := rfl

theorem firstPositiveInt_cons_skip (params : Params) (p : String) (rest : List String)
    (h : keyQualifies params p = false) :
    firstPositiveInt params (p :: rest) = firstPositiveInt params rest := by
  unfold keyQualifies at h
  rw [firstPositiveInt_cons]
  cases hl : params.lookup p with
  | none => simp
  | some raw =>
    rw [hl] at h
    simp only at h
    cases hp : pyInt raw with
    | none => simp [hp]
    | some v =>
      rw [hp] at h
      simp only [decide_eq_false_iff_not] at h
      simp [hp, h]

theorem firstPositiveInt_cons_hit (params : Params) (p : String) (rest : List String)
    (raw : Value) (v : Int) (hl : params.lookup p = some raw) (hp : pyInt raw = some v)
    (hpos : v > 0) : firstPositiveInt params (p :: rest) = some v := by
  rw [firstPositiveInt_cons, hl]
  simp [hp, hpos]

theorem firstPositiveInt_eq_of_first (params : Params) :
    ∀ (l : List String) (i : Nat) (raw : Value) (v : Int),
      i < l.length →
      params.lookup (l.getD i "") = some raw →
      pyInt raw = some v → v > 0 →
      (∀ j, j < i → keyQualifies params (l.getD j "") = false) →
      firstPositiveInt params l = some v := by
  intro l
  induction l with
  | nil => intro i raw v hi; simp at hi
  | cons p rest ih =>
    intro i raw v hi hlook hparse hpos hbefore
    cases i with
    | zero =>
      simp only [List.getD_cons_zero] at hlook
      exact firstPositiveInt_cons_hit params p rest raw v hlook hparse hpos
    | succ i' =>
      have h0 := hbefore 0 (Nat.zero_lt_succ i')
      simp only [List.getD_cons_zero] at h0
      rw [firstPositiveInt_cons_skip params p rest h0]
      refine ih i' raw v (by simpa using hi) (by simpa using hlook) hparse hpos ?_
      intro j hj
      have := hbefore (j + 1) (Nat.succ_lt_succ hj)
      simpa using this

theorem firstPositiveInt_eq_none (params : Params) :
    ∀ (l : List String), (∀ k ∈ l, keyQualifies params k = false) →
      firstPositiveInt params l = Option.none := by
  intro l
  induction l with
  | nil => intro; rfl
  | cons p rest ih =>
    intro h
    rw [firstPositiveInt_cons_skip params p rest (h p (List.mem_cons_self p rest))]
    exact ih fun k hk => h k (List.mem_cons_of_mem p hk)

theorem storageScanList_cons (params : Params) (p : String) (rest : List String) :
    storageScanList params (p :: rest) =
      match params.lookup p with
      | some raw =>
        match pyFloat raw with
        | some value => some (mbConvert (strLower p) value)
        | Option.none => storageScanList params rest
      | Option.none => storageScanList params rest := rfl

theorem storageScanList_cons_skip (params : Params) (p : String) (rest : List String)
    (h : keyParsesF params p = false) :
    storageScanList params (p :: rest) = storageScanList params rest := by
  unfold keyParsesF at h
  rw [storageScanList_cons]
  cases hl : params.lookup p with
  | none => simp
  | some raw =>
    rw [hl] at h
    simp only [Option.some_bind] at h
    cases hp : pyFloat raw with
    | none => simp [hp]
    | some value => rw [hp] at h; simp at h

theorem storageScanList_eq_of_first (params : Params) :
    ∀ (l : List String) (i : Nat) (raw : Value) (v : ℚ),
      i < l.length →
      params.lookup (l.getD i "") = some raw →
      pyFloat raw = some v →
      (∀ j, j < i → keyParsesF params (l.getD j "") = false) →
      storageScanList params l = some (mbConvert (strLower (l.getD i "")) v) := by
  intro l
  induction l with
  | nil => intro i raw v hi; simp at hi
  | cons p rest ih =>
    intro i raw v hi hlook hparse hbefore
    cases i with
    | zero =>
      simp only [List.getD_cons_zero] at hlook ⊢
      rw [storageScanList_cons, hlook]
      simp [hparse]
    | succ i' =>
      have h0 := hbefore 0 (Nat.zero_lt_succ i')
      simp only [List.getD_cons_zero] at h0
      rw [storageScanList_cons_skip params p rest h0]
      simp only [List.getD_cons_succ] at hlook ⊢
      refine ih i' raw v (by simpa using hi) hlook hparse ?_
      intro j hj
      have := hbefore (j + 1) (Nat.succ_lt_succ hj)
      simpa using this

theorem firstPresent_eq_none (params : Params) :
    ∀ (l : List String), (∀ k ∈ l, params.lookup k = Option.none) →
      firstPresent params l = Option.none := by
  intro l
  induction l with
  | nil => intro; rfl
  | cons p rest ih =>
    intro h
    unfold firstPresent
    rw [h p (List.mem_cons_self p rest)]
    exact ih fun k hk => h k (List.mem_cons_of_mem p hk)

/-! Claim theorems. -/

/-- Claim C1: for every Usage Record containing a key of the ordered
comprehensive list item_count_params whose value parses with int to a
strictly positive value, get_drive_item_count returns exactly the value of
the first such key in list order, regardless of any other keys present in
the record and of the magnitudes of later-listed keys. -/
theorem C1_comprehensive_first_key (params : Params) (i : Nat) (raw : Value) (v : Int)
    (hi : i < item_count_params.length)
    (hlook : params.lookup (item_count_params.getD i "") = some raw)
    (hparse : pyInt raw = some v) (hpos : v > 0)
    (hbefore : ∀ j, j < i → keyQualifies params (item_count_params.getD j "") = false) :
    get_drive_item_count params = v := by
  unfold get_drive_item_count
  rw [firstPositiveInt_eq_of_first params item_count_params i raw v hi hlook hparse hpos hbefore]

/-- Witness for C1: num_items is present but unparseable, num_docs carries 3,
num_sheets carries the larger 999; the resolver returns 3. -/
theorem C1_witness :
    get_drive_item_count [("num_items", Value.str "abc"), ("num_docs", Value.int 3),
      ("num_sheets", Value.int 999)] = 3 :=
  C1_comprehensive_first_key _ 1 (Value.int 3) 3 (by decide) (by decide) (by decide) (by decide)
    (by decide)

/-- Claim C5: with dry-run enabled, add_admin_to_drive issues no permissions
update and no permissions create call, whatever the permission-check outcome
and whatever the remote would answer, and returns success after logging. -/
theorem C5_dry_run_no_mutation (listOk : Bool) (perms : List Permission)
    (adminEmail role : String) (remoteOk : Bool) :
    (add_admin_to_drive listOk perms adminEmail role true remoteOk).calls = [] ∧
    (add_admin_to_drive listOk perms adminEmail role true remoteOk).success = true := by
  simp only [add_admin_to_drive]
  by_cases h1 : (check_admin_permissions listOk perms adminEmail).1
  · by_cases h2 : (check_admin_permissions listOk perms adminEmail).2.2 = some role
    · simp [h1, h2]
    · simp [h1, h2]
  · simp [h1]

/-- Claim C6: when the permission check reports that the principal already
holds exactly the requested role, add_admin_to_drive issues no mutating
call, leaves the permission state unchanged, reports the already-has-role
no-op, and returns success — dry-run or not. -/
theorem C6_already_has_role (listOk : Bool) (perms : List Permission)
    (adminEmail role : String) (dryRun remoteOk : Bool) (pid : Option String)
    (hc : check_admin_permissions listOk perms adminEmail = (true, pid, some role)) :
    (add_admin_to_drive listOk perms adminEmail role dryRun remoteOk).calls = [] ∧
    applyCalls perms (add_admin_to_drive listOk perms adminEmail role dryRun remoteOk).calls
      = perms ∧
    (add_admin_to_drive listOk perms adminEmail role dryRun remoteOk).report
      = Report.alreadyHas ∧
    (add_admin_to_drive listOk perms adminEmail role dryRun remoteOk).success = true := by
  simp [add_admin_to_drive, hc, applyCalls]

/-- Witness for C6: the admin already holds manager (matched case
insensitively); the second grant is a reported no-op. -/
theorem C6_witness :
    (add_admin_to_drive true
      [{ id := "permid1", emailAddress := "Admin@Example.com", role := "manager" }]
      "admin@example.com" "manager" false true).calls = [] ∧
    applyCalls [{ id := "permid1", emailAddress := "Admin@Example.com", role := "manager" }]
      (add_admin_to_drive true
        [{ id := "permid1", emailAddress := "Admin@Example.com", role := "manager" }]
        "admin@example.com" "manager" false true).calls
      = [{ id := "permid1", emailAddress := "Admin@Example.com", role := "manager" }] ∧
    (add_admin_to_drive true
      [{ id := "permid1", emailAddress := "Admin@Example.com", role := "manager" }]
      "admin@example.com" "manager" false true).report = Report.alreadyHas ∧
    (add_admin_to_drive true
      [{ id := "permid1", emailAddress := "Admin@Example.com", role := "manager" }]
      "admin@example.com" "manager" false true).success = true :=
  C6_already_has_role true
    [{ id := "permid1", emailAddress := "Admin@Example.com", role := "manager" }]
    "admin@example.com" "manager" false true (some "permid1") (by decide)

/-- Claim C7: for every principal, the stats record of
get_user_workspace_stats satisfies Total_Storage_MB = Gmail_Storage_MB +
Drive_Storage_MB, the components being independently resolved and zero by
default, also on an empty or failed-to-fetch Usage Record. -/
theorem C7_total_storage_invariant (suspended : Bool) (params : Params) :
    (get_user_workspace_stats suspended params).Total_Storage_MB =
      (get_user_workspace_stats suspended params).Gmail_Storage_MB +
        (get_user_workspace_stats suspended params).Drive_Storage_MB ∧
    (get_user_workspace_stats suspended []).Gmail_Storage_MB = 0 ∧
    (get_user_workspace_stats suspended []).Drive_Storage_MB = 0 ∧
    (get_user_workspace_stats suspended []).Total_Storage_MB = 0 := by
  refine ⟨?_, by simp [get_user_workspace_stats], by simp [get_user_workspace_stats],
    by simp [get_user_workspace_stats]⟩
  by_cases hp : params.isEmpty
  · simp [get_user_workspace_stats, hp]
  · simp [get_user_workspace_stats, hp]

/-- Claim C10: a suspended principal whose non-empty Usage Record carries
none of the Gmail-status keys is exported with Is_Gmail_Enabled = true: the
False set by the suspension check is overwritten by the Gmail resolver
default when the stats are merged. -/
theorem C10_suspended_enabled_overwritten (params : Params)
    (hne : params ≠ [])
    (hstatus : ∀ k ∈ gmail_status_params, params.lookup k = Option.none) :
    (get_user_workspace_stats true params).Is_Gmail_Enabled = true := by
  have hempty : params.isEmpty = false := by
    cases params with
    | nil => exact absurd rfl hne
    | cons a l => rfl
  have hfp : firstPresent params gmail_status_params = Option.none :=
    firstPresent_eq_none params gmail_status_params hstatus
  simp [get_user_workspace_stats, hempty, get_gmail_statistics, hfp]

/-- Witness for C10: a suspended user with a non-empty record holding only a
sent-mail count is exported as Gmail-enabled. -/
theorem C10_witness :
    (get_user_workspace_stats true [("num_emails_sent", Value.int 5)]).Is_Gmail_Enabled
      = true :=
  C10_suspended_enabled_overwritten [("num_emails_sent", Value.int 5)] (by decide) (by decide)

theorem hasComponent_of_qualifies (params : Params) (k : String)
    (hk : k ∈ doc_type_params) (hq : keyQualifies params k = true) :
    hasComponent params = true := by
  unfold keyQualifies at hq
  unfold hasComponent
  rw [List.any_eq_true]
  refine ⟨k, hk, ?_⟩
  cases hl : params.lookup k with
  | none => rw [hl] at hq; simp at hq
  | some raw =>
    rw [hl] at hq
    simp only at hq ⊢
    cases hp : pyInt raw with
    | none => rw [hp] at hq; simp at hq
    | some v => simp [hp]

/-- Claim C2 counterexample: no comprehensive key qualifies, two component
keys are present and positive (5 and 7), yet the sum of all present parsed
components is 0 because a third component carries -12; the resolver then
falls through to the substring stage and returns 42 instead of the sum. -/
theorem C2_counterexample :
    (∀ k ∈ item_count_params,
      keyQualifies [("drive:num_owned_google_documents_created", Value.int 5),
        ("drive:num_owned_google_spreadsheets_created", Value.int 7),
        ("drive:num_owned_google_forms_created", Value.int (-12)),
        ("drive_items_total", Value.int 42)] k = false) ∧
    keyQualifies [("drive:num_owned_google_documents_created", Value.int 5),
        ("drive:num_owned_google_spreadsheets_created", Value.int 7),
        ("drive:num_owned_google_forms_created", Value.int (-12)),
        ("drive_items_total", Value.int 42)]
      "drive:num_owned_google_documents_created" = true ∧
    keyQualifies [("drive:num_owned_google_documents_created", Value.int 5),
        ("drive:num_owned_google_spreadsheets_created", Value.int 7),
        ("drive:num_owned_google_forms_created", Value.int (-12)),
        ("drive_items_total", Value.int 42)]
      "drive:num_owned_google_spreadsheets_created" = true ∧
    componentSum [("drive:num_owned_google_documents_created", Value.int 5),
        ("drive:num_owned_google_spreadsheets_created", Value.int 7),
        ("drive:num_owned_google_forms_created", Value.int (-12)),
        ("drive_items_total", Value.int 42)] = 0 ∧
    get_drive_item_count [("drive:num_owned_google_documents_created", Value.int 5),
        ("drive:num_owned_google_spreadsheets_created", Value.int 7),
        ("drive:num_owned_google_forms_created", Value.int (-12)),
        ("drive_items_total", Value.int 42)] = 42 ∧
    (42 : Int) ≠ 0 := by decide

/-- Claim C2 amended: when no comprehensive key qualifies, two or more
component keys are present with positive parsed values, and the sum of all
present successfully-parsed component values is nonzero, get_drive_item_count
returns exactly that sum (when the sum is exactly zero the substring
fallback may take over instead). -/
theorem C2_component_sum (params : Params) (k₁ k₂ : String)
    (h₁ : k₁ ∈ doc_type_params) (h₂ : k₂ ∈ doc_type_params) (hne : k₁ ≠ k₂)
    (hq₁ : keyQualifies params k₁ = true) (hq₂ : keyQualifies params k₂ = true)
    (hcomp : ∀ k ∈ item_count_params, keyQualifies params k = false)
    (hsum : componentSum params ≠ 0) :
    get_drive_item_count params = componentSum params := by
  unfold get_drive_item_count
  rw [firstPositiveInt_eq_none params item_count_params hcomp]
  simp only
  have hhc : hasComponent params = true := hasComponent_of_qualifies params k₁ h₁ hq₁
  by_cases hpos : componentSum params > 0
  · simp [hhc, hpos]
  · have hcond : ¬(hasComponent params = true ∧ componentSum params > 0) :=
      fun hc => hpos hc.2
    rw [if_neg hcond, if_neg hsum]

/-- Witness for C2 amended: components 5 and 7 only; the resolver returns
their sum. -/
theorem C2_witness :
    get_drive_item_count [("drive:num_owned_google_documents_created", Value.int 5),
        ("drive:num_owned_google_spreadsheets_created", Value.int 7)]
      = componentSum [("drive:num_owned_google_documents_created", Value.int 5),
        ("drive:num_owned_google_spreadsheets_created", Value.int 7)] :=
  C2_component_sum _ "drive:num_owned_google_documents_created"
    "drive:num_owned_google_spreadsheets_created" (by decide) (by decide) (by decide)
    (by decide) (by decide) (by decide) (by decide)

theorem mbConvert_eq (lname : String) (v : ℚ) :
    mbConvert lname v =
      if strContains lname "bytes" ∨ v > 1000000 then v / 1048576 else v := by
  unfold mbConvert
  norm_num

/-- Claim C4 counterexample: the preferred key
accounts:drive_used_quota_in_mb carries 2000000, which exceeds one million
and whose key name has no bytes marker; the resolver returns it raw, not
divided by 1048576. -/
theorem C4_counterexample :
    get_drive_storage [("accounts:drive_used_quota_in_mb", Value.int 2000000)]
      = 2000000 ∧
    (2000000 : ℚ) > 1000000 ∧
    strContains (strLower "accounts:drive_used_quota_in_mb") "bytes" = false ∧
    (2000000 : ℚ) ≠ 2000000 / 1048576 :=
  ⟨by decide, by norm_num, by decide, by norm_num⟩

/-- Claim C4 amended: inside the ordered storage scan, a value taken from a
key whose name contains bytes, or exceeding one million, is divided by
1048576 and is otherwise returned unconverted; but the dedicated
accounts:drive_used_quota_in_mb and accounts:gmail_used_quota_in_mb branches
return the raw parsed value with no conversion at all. -/
theorem C4_unit_conversion :
    (∀ (params : Params) (raw : Value) (v : ℚ),
        params.lookup "accounts:drive_used_quota_in_mb" = some raw →
        pyFloat raw = some v → get_drive_storage params = v) ∧
    (∀ (params : Params) (raw : Value) (v : ℚ),
        params.lookup "accounts:gmail_used_quota_in_mb" = some raw →
        pyFloat raw = some v → (get_gmail_statistics params).Gmail_Storage_MB = v) ∧
    (∀ (params : Params) (i : Nat) (raw : Value) (v : ℚ),
        (params.lookup "accounts:drive_used_quota_in_mb").bind pyFloat = Option.none →
        i < storage_params.length →
        params.lookup (storage_params.getD i "") = some raw → pyFloat raw = some v →
        (∀ j, j < i → keyParsesF params (storage_params.getD j "") = false) →
        get_drive_storage params =
          (if strContains (strLower (storage_params.getD i "")) "bytes" ∨ v > 1000000
           then v / 1048576 else v)) := by
  refine ⟨?_, ?_, ?_⟩
  · intro params raw v hl hp
    unfold get_drive_storage
    rw [hl]
    simp [hp]
  · intro params raw v hl hp
    simp only [get_gmail_statistics, gmailStorageState]
    rw [hl]
    simp [hp]
  · intro params i raw v hacc hi hl hp hbefore
    have hscan := storageScanList_eq_of_first params storage_params i raw v hi hl hp hbefore
    unfold get_drive_storage driveStorageAfterAccounts
    cases hla : params.lookup "accounts:drive_used_quota_in_mb" with
    | none =>
      rw [hscan]
      simp [mbConvert_eq]
    | some raw2 =>
      rw [hla] at hacc
      simp only [Option.some_bind] at hacc
      simp [hacc, hscan, mbConvert_eq]

/-- Witness for C4 amended: the accounts key is returned raw even above one
million; a bytes-marked scanned key is divided by 1048576 (2097152 bytes
become 2 MB). -/
theorem C4_witness :
    get_drive_storage [("accounts:drive_used_quota_in_mb", Value.int 2000000)]
      = 2000000 ∧
    get_drive_storage [("drive_storage_bytes_used", Value.int 2097152)] = 2 := by
  constructor
  · exact C4_unit_conversion.1 _ (Value.int 2000000) 2000000 (by decide) (by decide)
  · have h := C4_unit_conversion.2.2 [("drive_storage_bytes_used", Value.int 2097152)] 0
      (Value.int 2097152) 2097152 (by decide) (by decide) (by decide) (by decide)
      (fun j hj => absurd hj (Nat.not_lt_zero j))
    rw [h, if_pos (Or.inl (by decide))]
    norm_num

/-- Claim C9 counterexample: sent resolves to -3 and received to -4 (both
non-zero), no exchanged key is present so the exchanged quantity resolves to
zero, yet get_gmail_statistics leaves Gmail_Emails_Exchanged at 0 instead of
synthesizing the sum -7: the code gates the synthesis on a positive sent or
received count, not on non-zero ones. -/
theorem C9_counterexample :
    (get_gmail_statistics [("num_emails_sent", Value.int (-3)),
      ("num_emails_received", Value.int (-4))]).Gmail_Emails_Sent = -3 ∧
    (get_gmail_statistics [("num_emails_sent", Value.int (-3)),
      ("num_emails_received", Value.int (-4))]).Gmail_Emails_Received = -4 ∧
    firstParsedInt [("num_emails_sent", Value.int (-3)),
      ("num_emails_received", Value.int (-4))] exchanged_params = Option.none ∧
    (get_gmail_statistics [("num_emails_sent", Value.int (-3)),
      ("num_emails_received", Value.int (-4))]).Gmail_Emails_Exchanged = 0 ∧
    ((0 : Int) ≠ -3 + -4) := by decide

/-- Claim C9 amended: when the exchanged quantity resolves to zero, the sent
and received quantities resolve to non-zero values, and at least one of them
is strictly positive, get_gmail_statistics synthesizes Gmail_Emails_Exchanged
as their sum; in particular sent=5 and received=7 with no exchanged key give
12. Only the neither-positive case (excluded by the counterexample) is
withdrawn from the original claim. -/
theorem C9_exchanged_synthesis (params : Params) (s r : Int)
    (hs : firstParsedInt params sent_params = some s)
    (hr : firstParsedInt params received_params = some r)
    (hx : (firstParsedInt params exchanged_params).getD 0 = 0)
    (hsnz : s ≠ 0) (hrnz : r ≠ 0) (hpos : s > 0 ∨ r > 0) :
    (get_gmail_statistics params).Gmail_Emails_Exchanged = s + r := by
  simp [get_gmail_statistics, hs, hr, hx, hpos]

/-- Witness for C9 amended: sent=5, received=7, no exchanged key gives 12;
and the mixed-sign record sent=5, received=-3 is synthesized to 2. -/
theorem C9_witness :
    (get_gmail_statistics [("num_emails_sent", Value.int 5),
      ("num_emails_received", Value.int 7)]).Gmail_Emails_Exchanged = 12 ∧
    (get_gmail_statistics [("num_emails_sent", Value.int 5),
      ("num_emails_received", Value.int (-3))]).Gmail_Emails_Exchanged = 2 := by
  constructor
  · have h := C9_exchanged_synthesis [("num_emails_sent", Value.int 5),
      ("num_emails_received", Value.int 7)] 5 7 (by decide) (by decide) (by decide)
      (by decide) (by decide) (Or.inl (by decide))
    rw [h]
    decide
  · have h := C9_exchanged_synthesis [("num_emails_sent", Value.int 5),
      ("num_emails_received", Value.int (-3))] 5 (-3) (by decide) (by decide) (by decide)
      (by decide) (by decide) (Or.inl (by decide))
    rw [h]
    decide
